import Mathlib

/-!
Shallow embedding of two components of the matrix-rust-sdk excerpt:

* the authenticated request dispatcher of `matrix_sdk/src/http_client.rs`
  together with the error taxonomy of `matrix_sdk/src/error.rs`, and
* the sqlite crypto account store of `src/crypto/store/sqlite.rs`,

followed by theorems settling the specification's claims against these
embeddings.  Rust `Result` values become `Except`, the `Arc<RwLock<Option<Session>>>`
slot becomes an explicit `Option Session` argument, the pluggable `HttpSend`
transport becomes a function argument, and the sqlite `account` table becomes a
list of rows with an explicit uniqueness check.  Calls that the Rust code
`unwrap()`s are embedded into outcome types with an explicit `panicked`
alternative, so that panicking and returning an error are distinguishable.
-/

namespace MatrixSdk

/-- Embedding of `UiaaInfo` (an external `ruma` type consumed by `error.rs`): the structured
description of the remaining interactive-authentication stages, carrying the
flows/completed stages and the session identifier needed to resubmit. -/
structure UiaaInfo where
  flows : List (List String)
  completed : List String
  session : Option String
deriving DecidableEq

/-- The external `ruma_client_api` error body (`api::Error`): a well-formed
Matrix protocol error with a machine-readable code and human message. -/
structure RumaClientError where
  errcode : String
  message : String
deriving DecidableEq

/-- Embedding of `ServerError<E>` from `ruma`, as matched by `Error::uiaa_response` in
`error.rs`: a deserialized endpoint error, or an unknown error body. -/
inductive ServerError (E : Type) where
  | known : E → ServerError E
  | unknown : String → ServerError E
deriving DecidableEq

/-- Embedding of `FromHttpResponseError<E>` from `ruma`, as matched by `Error::uiaa_response`
in `error.rs`: either the response body could not be deserialized, or it held a
server error. -/
inductive FromHttpResponseError (E : Type) where
  | deserialization : String → FromHttpResponseError E
  | http : ServerError E → FromHttpResponseError E
deriving DecidableEq

/-- Embedding of `UiaaResponse` (aliased `UiaaError` in `error.rs`): the error body of a
UIAA-capable endpoint — either a structured interactive-auth challenge or a
plain Matrix error. -/
inductive UiaaResponse where
  | authResponse : UiaaInfo → UiaaResponse
  | matrixError : RumaClientError → UiaaResponse
deriving DecidableEq

/-- Embedding of `IntoHttpError` from `ruma`: failure converting a typed request into an
http request (`try_into_http_request`). -/
structure IntoHttpError where
  message : String
deriving DecidableEq

/-- The `Error` enum of `matrix_sdk/src/error.rs`, constructor for constructor.
Opaque payloads of external error types are embedded as strings. -/
inductive Error where
  | authenticationRequired : Error
  | notClientRequest : Error
  | reqwest : String → Error
  | serdeJson : String → Error
  | ioError : String → Error
  | rumaResponse : FromHttpResponseError RumaClientError → Error
  | intoHttp : IntoHttpError → Error
  | matrixError : String → Error
  | cryptoStoreError : String → Error
  | stateStore : String → Error
  | uiaaError : FromHttpResponseError UiaaResponse → Error
deriving DecidableEq

/-- Embedding of `Error::uiaa_response` from `error.rs`: destructure the error into the
interactive-auth info if and only if it is a
`UiaaError(Http(Known(AuthResponse(i))))`. -/
def Error.uiaa_response : Error → Option UiaaInfo
  | .uiaaError (.http (.known (.authResponse i))) => some i
  | _ => none

/-- The `Session` held in the client's `Arc<RwLock<Option<Session>>>` slot. -/
structure Session where
  access_token : String
  user_id : String
  device_id : String
deriving DecidableEq

/-- Embedding of `AuthScheme` from `ruma` request metadata: the dispatcher's match in
`send_request` handles `AccessToken` and `None` and maps everything else
(e.g. server-to-server signatures) to `NotClientRequest`. -/
inductive AuthScheme where
  | none : AuthScheme
  | accessToken : AuthScheme
  | serverSignatures : AuthScheme
deriving DecidableEq

/-- HTTP methods, as matched by the content-type step of `send_request`. -/
inductive HttpMethod where
  | get : HttpMethod
  | post : HttpMethod
  | put : HttpMethod
  | delete : HttpMethod
  | head : HttpMethod
deriving DecidableEq

/-- The transport-neutral `http::Request<Vec<u8>>` envelope handed to the
pluggable `HttpSend` transport.  Headers are an ordered multimap, matching
`http::HeaderMap`, whose `append` keeps existing values. -/
structure HttpRequest where
  method : HttpMethod
  url : String
  headers : List (String × String)
  body : String
deriving DecidableEq

/-- The `http::Response<Vec<u8>>` envelope returned by the transport. -/
structure HttpResponse where
  status : Nat
  headers : List (String × String)
  body : String
deriving DecidableEq

/-- Request metadata (`Request::METADATA`), declaring the auth scheme. -/
structure RequestMetadata where
  authentication : AuthScheme

/-- An `OutgoingRequest`: metadata plus `try_into_http_request`, which builds
the envelope from the homeserver base URL and the optional access token and may
fail with `IntoHttpError`.  The body of `try_into_http_request` is
request-specific `ruma` code, so it is a function field here. -/
structure OutgoingRequest where
  metadata : RequestMetadata
  try_into_http_request : String → Option String → Except IntoHttpError HttpRequest

/-- The content-type step of `send_request`: for POST/PUT/DELETE, if a
content-type value was supplied, `append` it to the header map (appending keeps
any existing content-type header and adds another value). -/
def addContentType (contentType : Option String) (r : HttpRequest) : HttpRequest :=
  match r.method with
  | .post | .put | .delete =>
    match contentType with
    | some c => { r with headers := r.headers ++ [("content-type", c)] }
    | none => r
  | _ => r

/-- Steps 1–3 of `HttpClient::send_request`: resolve the access token from the
declared auth scheme and the session slot, build the envelope with
`try_into_http_request`, and apply the content-type step.  Returns the envelope
that would be handed to the transport, or the error that aborts dispatch. -/
def send_request_build (homeserver : String) (req : OutgoingRequest)
    (session : Option Session) (contentType : Option String) :
    Except Error HttpRequest :=
  let tokenStep : Except Error (Option String) :=
    match req.metadata.authentication with
    | .accessToken =>
      match session with
      | some s => Except.ok (some s.access_token)
      | none => Except.error Error.authenticationRequired
    | .none => Except.ok none
    | _ => Except.error Error.notClientRequest
  match tokenStep with
  | .error e => Except.error e
  | .ok accessToken =>
    match req.try_into_http_request homeserver accessToken with
    | .error e => Except.error (Error.intoHttp e)
    | .ok r => Except.ok (addContentType contentType r)

/-- Embedding of `HttpClient::send_request` in full: build the envelope, then hand it to the
pluggable transport (`self.inner.send_request(request)`). -/
def send_request (transport : HttpRequest → Except Error HttpResponse)
    (homeserver : String) (req : OutgoingRequest) (session : Option Session)
    (contentType : Option String) : Except Error HttpResponse :=
  match send_request_build homeserver req session contentType with
  | .error e => Except.error e
  | .ok r => transport r

/-- The envelope-building part of `HttpClient::send`, which always passes
`Some(HeaderValue::from_static("application/json"))` as the content type. -/
def send_build (transport : HttpRequest → Except Error HttpResponse)
    (homeserver : String) (req : OutgoingRequest) (session : Option Session) :
    Except Error HttpResponse :=
  send_request transport homeserver req session (some "application/json")

/-- The envelope-building part of `HttpClient::upload`, which always passes
`None` as the content type. -/
def upload_build (transport : HttpRequest → Except Error HttpResponse)
    (homeserver : String) (req : OutgoingRequest) (session : Option Session) :
    Except Error HttpResponse :=
  send_request transport homeserver req session none

/-- Parse outcomes for the response body of a UIAA-capable endpoint. -/
inductive UiaaBodyParse where
  | success : UiaaBodyParse
  | uiaaChallenge : UiaaInfo → UiaaBodyParse
  | matrixErrorBody : RumaClientError → UiaaBodyParse
  | undecodable : UiaaBodyParse
deriving DecidableEq

/-- Parse outcomes for the response body of a generic endpoint, whose endpoint
error type is the plain `ruma_client_api` error. -/
inductive GenericBodyParse where
  | success : GenericBodyParse
  | matrixErrorBody : RumaClientError → GenericBodyParse
  | undecodable : GenericBodyParse
deriving DecidableEq

/-- Modelled from the spec: `Request::IncomingResponse::try_from(response)` for
a UIAA-capable endpoint.  The conversion itself lives in the external `ruma`
crate, not under src/; the spec describes it as: a 2xx body decodes into the
typed success response, a non-2xx body that parses as a UIAA challenge or as a
protocol error yields the corresponding known server error, and an undecodable
body yields a deserialization failure. -/
def uiaaTryFromResponse (status : Nat) (body : UiaaBodyParse) :
    Except (FromHttpResponseError UiaaResponse) Unit :=
  if 200 ≤ status ∧ status < 300 then
    match body with
    | .success => Except.ok ()
    | _ => Except.error (FromHttpResponseError.deserialization "body is not the expected response")
  else
    match body with
    | .uiaaChallenge info =>
      Except.error (FromHttpResponseError.http (ServerError.known (UiaaResponse.authResponse info)))
    | .matrixErrorBody e =>
      Except.error (FromHttpResponseError.http (ServerError.known (UiaaResponse.matrixError e)))
    | _ => Except.error (FromHttpResponseError.deserialization "error body did not parse")

/-- Modelled from the spec: `Request::IncomingResponse::try_from(response)` for
a generic endpoint (endpoint error = plain protocol error); the conversion
lives in the external `ruma` crate, not under src/. -/
def rumaTryFromResponse (status : Nat) (body : GenericBodyParse) :
    Except (FromHttpResponseError RumaClientError) Unit :=
  if 200 ≤ status ∧ status < 300 then
    match body with
    | .success => Except.ok ()
    | _ => Except.error (FromHttpResponseError.deserialization "body is not the expected response")
  else
    match body with
    | .matrixErrorBody e =>
      Except.error (FromHttpResponseError.http (ServerError.known e))
    | _ => Except.error (FromHttpResponseError.deserialization "error body did not parse")

/-- The final line of `HttpClient::send` for a UIAA-capable endpoint:
`Ok(Request::IncomingResponse::try_from(response)?)`, where the `?` routes the
conversion error through `From<RumaResponseError<UiaaError>> for Error`, which
wraps it as `Error::UiaaError`. -/
def classifyUiaaSend (status : Nat) (body : UiaaBodyParse) : Except Error Unit :=
  match uiaaTryFromResponse status body with
  | .ok r => Except.ok r
  | .error e => Except.error (Error.uiaaError e)

/-- The final line of `HttpClient::send` for a generic endpoint: the `?` routes
the conversion error through `From<RumaResponseError<RumaClientError>> for
Error`, which wraps it as `Error::RumaResponse`. -/
def classifyGenericSend (status : Nat) (body : GenericBodyParse) : Except Error Unit :=
  match rumaTryFromResponse status body with
  | .ok r => Except.ok r
  | .error e => Except.error (Error.rumaResponse e)

/-- The spec's closed error taxonomy (§4.1), named as the spec names it. -/
inductive SpecErrorKind where
  | authenticationRequired : SpecErrorKind
  | notClientRequest : SpecErrorKind
  | transport : SpecErrorKind
  | serialization : SpecErrorKind
  | ioFailure : SpecErrorKind
  | responseDecode : SpecErrorKind
  | matrixProtocolError : SpecErrorKind
  | cryptoStore : SpecErrorKind
  | stateStore : SpecErrorKind
  | uiaaRequired : UiaaInfo → SpecErrorKind
deriving DecidableEq

/-- Refinement map, following the spec's words (§4.1), from the code's `Error`
to the spec's taxonomy: `UiaaRequired(info)` is "a 401 whose body is a
structured UIAA challenge ... carries the challenge", so only an error from
which the challenge is retrievable maps to it; "`ResponseDecode(e)` — the HTTP
envelope could not be interpreted as the expected typed response" covers every
deserialization failure; "`MatrixProtocolError(e)` — well-formed error response
from the server" covers every known/unknown server error body.  `MatrixError`
wraps base-library errors outside the dispatch taxonomy and maps to `none`. -/
def specKind : Error → Option SpecErrorKind
  | .authenticationRequired => some SpecErrorKind.authenticationRequired
  | .notClientRequest => some SpecErrorKind.notClientRequest
  | .reqwest _ => some SpecErrorKind.transport
  | .serdeJson _ => some SpecErrorKind.serialization
  | .ioError _ => some SpecErrorKind.ioFailure
  | .rumaResponse (.deserialization _) => some SpecErrorKind.responseDecode
  | .rumaResponse (.http _) => some SpecErrorKind.matrixProtocolError
  | .intoHttp _ => some SpecErrorKind.serialization
  | .matrixError _ => none
  | .cryptoStoreError _ => some SpecErrorKind.cryptoStore
  | .stateStore _ => some SpecErrorKind.stateStore
  | .uiaaError (.http (.known (.authResponse i))) => some (SpecErrorKind.uiaaRequired i)
  | .uiaaError (.http (.known (.matrixError _))) => some SpecErrorKind.matrixProtocolError
  | .uiaaError (.http (.unknown _)) => some SpecErrorKind.matrixProtocolError
  | .uiaaError (.deserialization _) => some SpecErrorKind.responseDecode

/-- Embedding of `PicklingMode` from the external `olm_rs` crate, as constructed by
`SqliteStore::get_pickle_mode`: `Encrypted { key }` with the passphrase bytes,
or `Unencrypted`. -/
inductive PicklingMode where
  | unencrypted : PicklingMode
  | encrypted : String → PicklingMode
deriving DecidableEq

/-- The opaque pickled blob stored in the `pickle` column.  Modelled from the
spec: the pickle is "an opaque serialized snapshot of cryptographic account
state, optionally passphrase-encrypted", produced by the external crypto
library (not under src/); the embedding records the content together with the
key it was encrypted under, so that unpickling under the wrong mode fails. -/
inductive Pickle where
  | plain : String → Pickle
  | cipher : String → String → Pickle
deriving DecidableEq

/-- Modelled from the spec: the olm `Account` is exposed to this core "only as
an opaque serializable pickle (byte/text blob) plus a `shared` boolean"; the
olm wrapper itself is not under src/. -/
structure Account where
  pickleData : String
  shared : Bool
deriving DecidableEq

/-- Modelled from the spec: `Account::pickle`, provided by the external crypto
library — serialize the account state under the given pickling mode. -/
def Account.pickle (a : Account) : PicklingMode → Pickle
  | .unencrypted => Pickle.plain a.pickleData
  | .encrypted key => Pickle.cipher key a.pickleData

/-- Modelled from the spec: `Account::from_pickle`, provided by the external
crypto library — unpickling succeeds exactly when the mode matches the one the
blob was pickled under (same key for `Encrypted`), and "fails ... e.g. wrong or
missing passphrase" otherwise; the `shared` flag is taken from the stored
column. -/
def Account.from_pickle (p : Pickle) (mode : PicklingMode) (shared : Bool) :
    Option Account :=
  match mode, p with
  | .unencrypted, .plain s => some { pickleData := s, shared := shared }
  | .encrypted key, .cipher key2 s =>
    if key = key2 then some { pickleData := s, shared := shared } else none
  | _, _ => none

/-- The `SqliteStore` fields that determine its behaviour: the key
`(user_id, device_id)` and the optional pickle passphrase fixed at open time.
The sqlite connection is replaced by explicit table-state arguments. -/
structure SqliteStore where
  user_id : String
  device_id : String
  pickle_passphrase : Option String
deriving DecidableEq

/-- Embedding of `SqliteStore::get_pickle_mode`: `Encrypted` with the passphrase bytes when
a passphrase was given at open time, else `Unencrypted`. -/
def SqliteStore.get_pickle_mode (store : SqliteStore) : PicklingMode :=
  match store.pickle_passphrase with
  | some p => PicklingMode.encrypted p
  | none => PicklingMode.unencrypted

/-- One row of the `account` table: `user_id`, `device_id`, `pickle`, `shared`,
with `UNIQUE(user_id, device_id)`. -/
structure AccountRow where
  user_id : String
  device_id : String
  pickle : Pickle
  shared : Bool
deriving DecidableEq

/-- The `account` table, as an ordered list of rows. -/
abbrev AccountTable := List AccountRow

/-- Embedding of `SELECT ... FROM account WHERE user_id = ? and device_id = ?`: the first
row matching the key, if any. -/
def findRow (db : AccountTable) (uid did : String) : Option AccountRow :=
  db.find? (fun r => r.user_id == uid && r.device_id == did)

/-- A sqlite error surfaced by `execute`/`fetch_one`; the `account` table can
raise a uniqueness violation on its `UNIQUE(user_id, device_id)` constraint,
and `fetch_one` fails when no row matches. -/
inductive SqlError where
  | uniqueViolation : SqlError
  | rowNotFound : SqlError
deriving DecidableEq

/-- A plain `INSERT INTO account`: fails with a uniqueness violation when a row
with the same `(user_id, device_id)` key already exists, else appends the row. -/
def insertAccount (row : AccountRow) (db : AccountTable) :
    Except SqlError AccountTable :=
  match findRow db row.user_id row.device_id with
  | some _ => Except.error SqlError.uniqueViolation
  | none => Except.ok (db ++ [row])

/-- Embedding of `INSERT OR IGNORE INTO account`: sqlite's IGNORE conflict resolution turns
the uniqueness violation into a no-op instead of an error. -/
def insertOrIgnore (row : AccountRow) (db : AccountTable) : AccountTable :=
  match insertAccount row db with
  | .error SqlError.uniqueViolation => db
  | .error _ => db
  | .ok db2 => db2

/-- Embedding of `SqliteStore::save_account`: pickle the account under the store's pickling
mode and `INSERT OR IGNORE` the row, binding the user id, device id, the
pickle, and the literal `true` for the `shared` column (the source binds the
constant `true`, not the account's flag).  The source `unwrap()`s the execute
result; `INSERT OR IGNORE` itself never surfaces the uniqueness violation, so
the embedding returns the updated table. -/
def save_account (store : SqliteStore) (account : Account) (db : AccountTable) :
    AccountTable :=
  let pickle := account.pickle store.get_pickle_mode
  insertOrIgnore
    { user_id := store.user_id, device_id := store.device_id,
      pickle := pickle, shared := true } db

/-- Outcome of an operation whose Rust body `unwrap()`s fallible calls: either
a value, an error returned through `Result`, or a panic. -/
inductive LoadResult where
  | ok : Account → LoadResult
  | storeError : String → LoadResult
  | panicked : LoadResult
deriving DecidableEq

/-- Embedding of `SqliteStore::load_account`: `fetch_one` the row for the store's key —
the source `unwrap()`s its result, so a missing row panics — then
`Account::from_pickle(pickle, mode, shared).unwrap()`, so a failed unpickle
also panics. -/
def load_account (store : SqliteStore) (db : AccountTable) : LoadResult :=
  match findRow db store.user_id store.device_id with
  | none => LoadResult.panicked
  | some row =>
    match Account.from_pickle row.pickle store.get_pickle_mode row.shared with
    | none => LoadResult.panicked
    | some a => LoadResult.ok a

/-- The filesystem facts `SqliteStore::open_helper` depends on: whether
`Url::from_directory_path(path)` accepts the path (it must be a valid absolute
directory path), whether `SqliteConnection::connect` can open/create the
database file there, and whether the database file already exists. -/
structure FileSystem where
  pathValid : Bool
  pathReadable : Bool
  dbFileExists : Bool
deriving DecidableEq

/-- Outcome of opening a store: a store, an error returned through `Result`,
or a panic. -/
inductive OpenResult where
  | ok : SqliteStore → OpenResult
  | storeError : String → OpenResult
  | panicked : OpenResult
deriving DecidableEq

/-- Embedding of `SqliteStore::open_helper`: `Url::from_directory_path(path).unwrap()`
panics on an invalid path; `SqliteConnection::connect(url).unwrap()` panics
when the path is unreadable; then `create_tables` runs
`CREATE TABLE IF NOT EXISTS account (...)`, which succeeds whether or not the
database file (and the table) already exists, and the store is returned with
its pickling mode fixed by the passphrase. -/
def open_helper (user_id device_id : String) (fs : FileSystem)
    (passphrase : Option String) : OpenResult :=
  if fs.pathValid = false then OpenResult.panicked
  else if fs.pathReadable = false then OpenResult.panicked
  else OpenResult.ok
    { user_id := user_id, device_id := device_id, pickle_passphrase := passphrase }

/-- A concrete request whose metadata declares `AuthScheme::AccessToken`. -/
def sampleTokenReq : OutgoingRequest :=
  { metadata := { authentication := AuthScheme.accessToken },
    try_into_http_request := fun hs _ =>
      Except.ok { method := HttpMethod.post, url := hs ++ "/_matrix/client/r0/account",
                  headers := [], body := "" } }

/-- A concrete request whose metadata declares `AuthScheme::None`. -/
def sampleAnonReq : OutgoingRequest :=
  { metadata := { authentication := AuthScheme.none },
    try_into_http_request := fun hs _ =>
      Except.ok { method := HttpMethod.get, url := hs ++ "/_matrix/client/versions",
                  headers := [], body := "" } }

/-- A concrete request whose metadata declares server-signature auth. -/
def sampleFederationReq : OutgoingRequest :=
  { metadata := { authentication := AuthScheme.serverSignatures },
    try_into_http_request := fun hs _ =>
      Except.ok { method := HttpMethod.get, url := hs ++ "/_matrix/federation/v1/version",
                  headers := [], body := "" } }

/-- A concrete POST request that already carries a content-type header when it
comes out of `try_into_http_request`. -/
def presetContentTypeReq : OutgoingRequest :=
  { metadata := { authentication := AuthScheme.none },
    try_into_http_request := fun _ _ =>
      Except.ok { method := HttpMethod.post, url := "https://example.org/u",
                  headers := [("content-type", "multipart/form-data")], body := "b" } }

/-- A transport stub that answers every envelope with an empty 200 response. -/
def okTransport : HttpRequest → Except Error HttpResponse :=
  fun _ => Except.ok { status := 200, headers := [], body := "" }

/-- The store of the spec's concrete scenario: `(@alice:example.org, DEVICE1)`
opened with no passphrase. -/
def aliceStore : SqliteStore :=
  { user_id := "@alice:example.org", device_id := "DEVICE1", pickle_passphrase := none }

/-- The same key opened with the passphrase `wrong`. -/
def aliceStoreWrongPass : SqliteStore :=
  { user_id := "@alice:example.org", device_id := "DEVICE1", pickle_passphrase := some "wrong" }

/-- Account `A` of the spec's concrete scenario, with `shared = false`. -/
def accountA : Account := { pickleData := "pickle-A", shared := false }

/-- A second, different in-memory account for the same device. -/
def accountB : Account := { pickleData := "pickle-B", shared := false }

/-- A concrete UIAA challenge body: password stage remaining. -/
def sampleUiaaInfo : UiaaInfo :=
  { flows := [["m.login.password"]], completed := [], session := some "sess1" }

/-- If no row in `db` matches the key, searching `db ++ l` is searching `l`. -/
theorem findRow_append_of_none {db : AccountTable} {u d : String} (l : AccountTable)
    (h : findRow db u d = none) : findRow (db ++ l) u d = findRow l u d := by
  have h2 : List.find? (fun r => r.user_id == u && r.device_id == d) db = none := h
  simp [findRow, List.find?_append, h2]

/-- After a first save into a table with no row for the store's key, the
stored row is the store's key with the account's pickle and `shared = true`. -/
theorem findRow_save (store : SqliteStore) (a : Account) (db : AccountTable)
    (h : findRow db store.user_id store.device_id = none) :
    findRow (save_account store a db) store.user_id store.device_id =
      some { user_id := store.user_id, device_id := store.device_id,
             pickle := a.pickle store.get_pickle_mode, shared := true } := by
  simp only [save_account, insertOrIgnore, insertAccount]
  rw [h]
  rw [findRow_append_of_none _ h]
  simp [findRow, List.find?]

/-- A plain `INSERT` of a row whose key is already present raises the
uniqueness violation. -/
theorem insertAccount_dup (row : AccountRow) (db : AccountTable) (r : AccountRow)
    (h : findRow db row.user_id row.device_id = some r) :
    insertAccount row db = Except.error SqlError.uniqueViolation := by
  simp only [insertAccount]
  rw [h]

/-- Saving via `save_account` into a table that already has a row for the store's key is
a no-op. -/
theorem save_account_noop (store : SqliteStore) (a : Account) (db : AccountTable)
    (r : AccountRow) (h : findRow db store.user_id store.device_id = some r) :
    save_account store a db = db := by
  simp only [save_account, insertOrIgnore, insertAccount]
  rw [h]

/-- C1: for every request whose declared auth scheme is `AccessToken`,
dispatching it while the shared Session slot holds no Session returns exactly
`Error::AuthenticationRequired`, for every transport — so the transport's send
operation is never invoked for that request. -/
theorem c1_access_token_without_session
    (transport : HttpRequest → Except Error HttpResponse)
    (homeserver : String) (req : OutgoingRequest) (contentType : Option String)
    (h : req.metadata.authentication = AuthScheme.accessToken) :
    send_request transport homeserver req none contentType =
      Except.error Error.authenticationRequired := by
  simp [send_request, send_request_build, h]

theorem c1_witness :
    send_request okTransport "https://example.org" sampleTokenReq none
      (some "application/json") = Except.error Error.authenticationRequired :=
  c1_access_token_without_session okTransport "https://example.org" sampleTokenReq
    (some "application/json") rfl

/-- C8: for every request whose declared auth scheme is `None`, the session
slot is never read — dispatch has the same outcome whatever the slot holds —
and the envelope-building step never fails with `AuthenticationRequired`. -/
theorem c8_auth_none_ignores_session
    (transport : HttpRequest → Except Error HttpResponse)
    (homeserver : String) (req : OutgoingRequest) (contentType : Option String)
    (s1 s2 : Option Session)
    (h : req.metadata.authentication = AuthScheme.none) :
    send_request transport homeserver req s1 contentType =
      send_request transport homeserver req s2 contentType ∧
    ∀ s, send_request_build homeserver req s contentType ≠
      Except.error Error.authenticationRequired := by
  constructor
  · simp [send_request, send_request_build, h]
  · intro s
    simp only [send_request_build, h]
    cases hr : req.try_into_http_request homeserver none with
    | error e => simp [hr]
    | ok r => simp [hr]

theorem c8_witness :
    (send_request okTransport "https://example.org" sampleAnonReq
        (some { access_token := "t0", user_id := "@a:b", device_id := "D" })
        (some "application/json") =
      send_request okTransport "https://example.org" sampleAnonReq none
        (some "application/json")) ∧
    ∀ s, send_request_build "https://example.org" sampleAnonReq s
      (some "application/json") ≠ Except.error Error.authenticationRequired :=
  c8_auth_none_ignores_session okTransport "https://example.org" sampleAnonReq
    (some "application/json")
    (some { access_token := "t0", user_id := "@a:b", device_id := "D" }) none rfl

/-- C9: for every request whose declared auth scheme is neither `AccessToken`
nor `None`, dispatch returns exactly `Error::NotClientRequest`, for every
transport and session — so the transport is never invoked. -/
theorem c9_unsupported_scheme
    (transport : HttpRequest → Except Error HttpResponse)
    (homeserver : String) (req : OutgoingRequest) (session : Option Session)
    (contentType : Option String)
    (h1 : req.metadata.authentication ≠ AuthScheme.none)
    (h2 : req.metadata.authentication ≠ AuthScheme.accessToken) :
    send_request transport homeserver req session contentType =
      Except.error Error.notClientRequest := by
  have h : req.metadata.authentication = AuthScheme.serverSignatures := by
    cases hA : req.metadata.authentication <;> simp_all
  simp [send_request, send_request_build, h]

theorem c9_witness :
    send_request okTransport "https://example.org" sampleFederationReq none
      (some "application/json") = Except.error Error.notClientRequest :=
  c9_unsupported_scheme okTransport "https://example.org" sampleFederationReq
    none (some "application/json") (by decide) (by decide)

/-- C6 counterexample: a POST request that already carries a content-type
header, dispatched on the `send` path, still gets `application/json` appended —
the code has no "unless the caller already set one" check, it `append`s
whenever the method is POST/PUT/DELETE and a content type was supplied. -/
theorem c6_counterexample :
    ∃ e, send_request_build "https://example.org" presetContentTypeReq none
        (some "application/json") = Except.ok e ∧
      ("content-type", "multipart/form-data") ∈ e.headers ∧
      ("content-type", "application/json") ∈ e.headers := by
  refine ⟨_, rfl, ?_, ?_⟩ <;> simp [send_request_build, presetContentTypeReq, addContentType]

/-- C6 amended: on the `send` path (content type `application/json`) the header
is appended for POST/PUT/DELETE regardless of any content-type the request
already carries (existing headers are preserved, the JSON value is added after
them), no header is added for other methods, and on the `upload` path (content
type `None`) the envelope is handed over unchanged. -/
theorem c6_content_type_step
    (homeserver : String) (req : OutgoingRequest) (session : Option Session)
    (r0 : HttpRequest)
    (h1 : req.metadata.authentication = AuthScheme.none)
    (h2 : req.try_into_http_request homeserver none = Except.ok r0) :
    (send_request_build homeserver req session (some "application/json") =
      Except.ok (addContentType (some "application/json") r0)) ∧
    ((r0.method = HttpMethod.post ∨ r0.method = HttpMethod.put ∨
        r0.method = HttpMethod.delete) →
      (addContentType (some "application/json") r0).headers =
        r0.headers ++ [("content-type", "application/json")]) ∧
    ((r0.method ≠ HttpMethod.post ∧ r0.method ≠ HttpMethod.put ∧
        r0.method ≠ HttpMethod.delete) →
      addContentType (some "application/json") r0 = r0) ∧
    (send_request_build homeserver req session none = Except.ok r0) := by
  refine ⟨by simp [send_request_build, h1, h2], ?_, ?_, ?_⟩
  · rintro (hm | hm | hm) <;> simp [addContentType, hm]
  · rintro ⟨hp, hu, hd⟩
    cases hm : r0.method <;> simp_all [addContentType]
  · have hn : addContentType none r0 = r0 := by
      cases hm : r0.method <;> simp [addContentType, hm]
    simp [send_request_build, h1, h2, hn]

theorem c6_witness :
    (send_request_build "https://example.org" presetContentTypeReq none
        (some "application/json") =
      Except.ok (addContentType (some "application/json")
        { method := HttpMethod.post, url := "https://example.org/u",
          headers := [("content-type", "multipart/form-data")], body := "b" })) ∧
    ((addContentType (some "application/json")
        { method := HttpMethod.post, url := "https://example.org/u",
          headers := [("content-type", "multipart/form-data")], body := "b" }).headers =
      [("content-type", "multipart/form-data")] ++
        [("content-type", "application/json")]) := by
  have h := c6_content_type_step "https://example.org" presetContentTypeReq none
    { method := HttpMethod.post, url := "https://example.org/u",
      headers := [("content-type", "multipart/form-data")], body := "b" } rfl rfl
  exact ⟨h.1, h.2.1 (Or.inl rfl)⟩

/-- C4: classification of a non-2xx transport response on the `send` path.  A
body parsing as a UIAA challenge yields the `UiaaError` variant from which
`uiaa_response` retrieves exactly the challenge info — `UiaaRequired(info)` in
the spec's taxonomy, not `MatrixProtocolError`; a body parsing as a protocol
error yields `MatrixProtocolError`; an undecodable body yields a
deserialization failure — `ResponseDecode` in the spec's taxonomy — carrying no
retrievable challenge, on UIAA-capable and generic endpoints alike. -/
theorem c4_uiaa_classification (status : Nat) (info : UiaaInfo)
    (e : RumaClientError) (h : ¬ (200 ≤ status ∧ status < 300)) :
    (∃ err, classifyUiaaSend status (UiaaBodyParse.uiaaChallenge info) =
        Except.error err ∧
      err.uiaa_response = some info ∧
      specKind err = some (SpecErrorKind.uiaaRequired info) ∧
      specKind err ≠ some SpecErrorKind.matrixProtocolError) ∧
    (∃ err, classifyUiaaSend status (UiaaBodyParse.matrixErrorBody e) =
        Except.error err ∧
      specKind err = some SpecErrorKind.matrixProtocolError) ∧
    (∃ err, classifyUiaaSend status UiaaBodyParse.undecodable = Except.error err ∧
      specKind err = some SpecErrorKind.responseDecode ∧
      err.uiaa_response = none) ∧
    (∃ err, classifyGenericSend status GenericBodyParse.undecodable =
        Except.error err ∧
      specKind err = some SpecErrorKind.responseDecode) := by
  refine
    ⟨⟨Error.uiaaError (FromHttpResponseError.http (ServerError.known
        (UiaaResponse.authResponse info))), ?_, rfl, rfl, by simp [specKind]⟩,
      ⟨Error.uiaaError (FromHttpResponseError.http (ServerError.known
        (UiaaResponse.matrixError e))), ?_, rfl⟩,
      ⟨Error.uiaaError (FromHttpResponseError.deserialization
        ("error body did not parse")), ?_, rfl, rfl⟩,
      ⟨Error.rumaResponse (FromHttpResponseError.deserialization
        ("error body did not parse")), ?_, rfl⟩⟩ <;>
    simp [classifyUiaaSend, classifyGenericSend, uiaaTryFromResponse,
      rumaTryFromResponse, h]

theorem c4_witness :
    (∃ err, classifyUiaaSend 401 (UiaaBodyParse.uiaaChallenge sampleUiaaInfo) =
        Except.error err ∧
      err.uiaa_response = some sampleUiaaInfo ∧
      specKind err = some (SpecErrorKind.uiaaRequired sampleUiaaInfo) ∧
      specKind err ≠ some SpecErrorKind.matrixProtocolError) ∧
    (∃ err, classifyUiaaSend 401
        (UiaaBodyParse.matrixErrorBody { errcode := "M_FORBIDDEN", message := "no" }) =
        Except.error err ∧
      specKind err = some SpecErrorKind.matrixProtocolError) ∧
    (∃ err, classifyUiaaSend 401 UiaaBodyParse.undecodable = Except.error err ∧
      specKind err = some SpecErrorKind.responseDecode ∧
      err.uiaa_response = none) ∧
    (∃ err, classifyGenericSend 401 GenericBodyParse.undecodable =
        Except.error err ∧
      specKind err = some SpecErrorKind.responseDecode) :=
  c4_uiaa_classification 401 sampleUiaaInfo
    { errcode := "M_FORBIDDEN", message := "no" } (by decide)

/-- C2: spec's concrete scenario evaluated on the code — open a store for
`(@alice:example.org, DEVICE1)` with no passphrase, save account `A` with
`shared = false`, then load: the result has `shared = true` (the saved row's
`shared` column is the literal `true` bound by `save_account`), so it does not
equal `A` and the round trip does not preserve `shared = false`. -/
theorem c2_round_trip_loses_shared :
    load_account aliceStore (save_account aliceStore accountA []) =
      LoadResult.ok { pickleData := "pickle-A", shared := true } ∧
    load_account aliceStore (save_account aliceStore accountA []) ≠
      LoadResult.ok accountA := by
  constructor
  · rfl
  · intro hEq
    have h2 : ({ pickleData := "pickle-A", shared := true } : Account) = accountA := by
      have h1 : LoadResult.ok { pickleData := "pickle-A", shared := true } =
          LoadResult.ok accountA := hEq
      exact LoadResult.ok.inj h1
    simp [accountA] at h2

/-- C3: `load_account` on a table with no row for the store's key panics (the
code `unwrap()`s the `fetch_one` result), and loading a record pickled under a
different passphrase panics too (the code `unwrap()`s `from_pickle`); neither
case returns a `storeError` through the `Result`. -/
theorem c3_load_account_panics :
    load_account aliceStore [] = LoadResult.panicked ∧
    load_account aliceStoreWrongPass
      [{ user_id := "@alice:example.org", device_id := "DEVICE1",
         pickle := Pickle.cipher "right" "pickle-A", shared := true }] =
      LoadResult.panicked ∧
    (∀ msg, load_account aliceStore [] ≠ LoadResult.storeError msg) ∧
    (∀ msg, load_account aliceStoreWrongPass
      [{ user_id := "@alice:example.org", device_id := "DEVICE1",
         pickle := Pickle.cipher "right" "pickle-A", shared := true }] ≠
      LoadResult.storeError msg) := by
  refine ⟨rfl, by decide, ?_, ?_⟩
  · intro msg h
    rw [show load_account aliceStore [] = LoadResult.panicked from rfl] at h
    exact LoadResult.noConfusion h
  · intro msg h
    rw [show load_account aliceStoreWrongPass
      [{ user_id := "@alice:example.org", device_id := "DEVICE1",
         pickle := Pickle.cipher "right" "pickle-A", shared := true }] =
      LoadResult.panicked from by decide] at h
    exact LoadResult.noConfusion h

/-- C5: starting from a table with no row for the store's key, a second
`save_account` with any (possibly different) account is a no-op: it raises no
uniqueness error (`INSERT OR IGNORE` swallows the violation a plain `INSERT`
would raise, as the third conjunct shows) and leaves the pickle written by the
first save unchanged. -/
theorem c5_save_account_idempotent (store : SqliteStore) (a1 a2 : Account)
    (db : AccountTable)
    (h : findRow db store.user_id store.device_id = none) :
    save_account store a2 (save_account store a1 db) = save_account store a1 db ∧
    (findRow (save_account store a1 db) store.user_id store.device_id).map
        AccountRow.pickle = some (a1.pickle store.get_pickle_mode) ∧
    insertAccount
      { user_id := store.user_id, device_id := store.device_id,
        pickle := a2.pickle store.get_pickle_mode, shared := true }
      (save_account store a1 db) = Except.error SqlError.uniqueViolation := by
  have hfind := findRow_save store a1 db h
  refine ⟨?_, ?_, ?_⟩
  · exact save_account_noop store a2 _ _ hfind
  · rw [hfind]; rfl
  · exact insertAccount_dup _ _ _ hfind

theorem c5_witness :
    (save_account aliceStore accountB (save_account aliceStore accountA []) =
      save_account aliceStore accountA []) ∧
    ((findRow (save_account aliceStore accountA []) aliceStore.user_id
        aliceStore.device_id).map AccountRow.pickle =
      some (accountA.pickle aliceStore.get_pickle_mode)) ∧
    insertAccount
      { user_id := aliceStore.user_id, device_id := aliceStore.device_id,
        pickle := accountB.pickle aliceStore.get_pickle_mode, shared := true }
      (save_account aliceStore accountA []) =
      Except.error SqlError.uniqueViolation :=
  c5_save_account_idempotent aliceStore accountA accountB [] rfl

/-- C7: opening with a valid, readable path succeeds whether or not the
database file already exists (the schema step is `CREATE TABLE IF NOT EXISTS`),
but an invalid path makes `open_helper` panic — `Url::from_directory_path(path)
.unwrap()` — and an unreadable path makes it panic too —
`SqliteConnection::connect(url).unwrap()` — instead of returning an error
through the `Result`. -/
theorem c7_open_panics_on_bad_path :
    (∀ b : Bool, open_helper "@alice:example.org" "DEVICE1"
        { pathValid := true, pathReadable := true, dbFileExists := b } none =
      OpenResult.ok aliceStore) ∧
    open_helper "@alice:example.org" "DEVICE1"
      { pathValid := false, pathReadable := true, dbFileExists := false } none =
      OpenResult.panicked ∧
    open_helper "@alice:example.org" "DEVICE1"
      { pathValid := true, pathReadable := false, dbFileExists := false } none =
      OpenResult.panicked ∧
    (∀ msg, open_helper "@alice:example.org" "DEVICE1"
      { pathValid := false, pathReadable := true, dbFileExists := false } none ≠
      OpenResult.storeError msg) := by
  refine ⟨fun b => by cases b <;> rfl, rfl, rfl, ?_⟩
  intro msg h
  exact OpenResult.noConfusion h

/-- C10: the row `save_account` inserts always carries `shared = true` — the
source binds the literal `true` into the `shared` column — whatever the
in-memory account's `shared` flag is; so `shared = false` is never persisted
by `save_account`. -/
theorem c10_saved_shared_always_true (store : SqliteStore) (a : Account)
    (db : AccountTable)
    (h : findRow db store.user_id store.device_id = none) :
    (findRow (save_account store a db) store.user_id store.device_id).map
      AccountRow.shared = some true := by
  rw [findRow_save store a db h]
  rfl

theorem c10_witness :
    (findRow (save_account aliceStore accountA []) aliceStore.user_id
      aliceStore.device_id).map AccountRow.shared = some true :=
  c10_saved_shared_always_true aliceStore accountA [] rfl

end MatrixSdk
